import Mathlib

/-!
Verification of the WSDOT web-styles extraction tools.

This file gives a shallow embedding of the two extraction pipelines of
the repository: the color classifier (class `ColorInfo` and its callers
in `tools/index.ts`) and the typographic-scale row extractor
(`enumerateScaleIncrements`).  HTML tables are modelled as lists of rows
of cells, a cell being the optional text content of a `td` element.
JavaScript regular expressions are modelled by hand-written leftmost
matchers specialised to the four patterns of the source; the global-flag
`lastIndex` state of `RegExp.prototype.test` is threaded explicitly
where the source relies on it.
-/

namespace WsdotStyles

/-- Character class of the JavaScript regex escape `\s`
(ASCII whitespace plus no-break space; the rarer Unicode space
characters never occur in the modelled inputs). -/
def isJsWhitespace (c : Char) : Bool :=
  c = ' ' || c = '\t' || c = '\n' || c = '\r' || c = '\x0b' || c = '\x0c' || c = '\u00A0'

/-- JavaScript line terminators, which the regex metacharacter dot does not match. -/
def isLineTerminator (c : Char) : Bool :=
  c = '\n' || c = '\r' || c = '\u2028' || c = '\u2029'

/-- Character class of the regex `[0-9a-f]` under the case-insensitive flag. -/
def isHexDigit (c : Char) : Bool :=
  c.isDigit || ('a' ≤ c && c ≤ 'f') || ('A' ≤ c && c ≤ 'F')

/-- Numeric value of a hexadecimal digit character. -/
def hexVal (c : Char) : Nat :=
  if c.isDigit then c.toNat - 48 else c.toLower.toNat - 87

/-- Value of a decimal digit string, as computed by `Number.parseInt`
on a string of digits. -/
def digitsToNat (l : List Char) : Nat :=
  l.foldl (fun n c => n * 10 + (c.toNat - 48)) 0

/-- Value of a hexadecimal digit string, as computed by
`Number.parseInt(s, 16)` on a string of hex digits. -/
def hexToNat (l : List Char) : Nat :=
  l.foldl (fun n c => n * 16 + hexVal c) 0

/-- Model of `String.prototype.trimEnd`: remove trailing whitespace. -/
def trimEnd (s : String) : String :=
  ⟨(s.data.reverse.dropWhile isJsWhitespace).reverse⟩

/-- Attempt to match the regex `(\d+)\s+(\d+)%` at the start of the list,
returning the matched characters.  Backtracking makes each quantified
group take a maximal run, since the character after each run is of a
disjoint class. -/
def matchPmsAt (l : List Char) : Option (List Char) :=
  let d1 := l.takeWhile Char.isDigit
  if d1.isEmpty then none else
  let r1 := l.drop d1.length
  let w := r1.takeWhile isJsWhitespace
  if w.isEmpty then none else
  let r2 := r1.drop w.length
  let d2 := r2.takeWhile Char.isDigit
  if d2.isEmpty then none else
  match r2.drop d2.length with
  | '%' :: _ => some (d1 ++ w ++ d2 ++ ['%'])
  | _ => none

/-- First (leftmost) match of `pmsRe = /(\d+)\s+(\d+)%/gi` in the list. -/
def pmsFind : List Char → Option (List Char)
  | [] => none
  | c :: cs =>
    match matchPmsAt (c :: cs) with
    | some m => some m
    | none => pmsFind cs

/-- Model of `v.match(pmsRe)` restricted to the first match,
which is all the constructor of `ColorInfo` uses. -/
def pmsMatch (s : String) : Option String :=
  (pmsFind s.data).map (fun l => ⟨l⟩)

/-- Attempt to match the regex `(\d+),\s(\d+),\s(\d+)` at the start of
the list, returning the three digit groups.  The source splits the
matched text on `,\s` and parses each piece; the three pieces are
exactly these groups. -/
def matchRgbAt (l : List Char) : Option (List Char × List Char × List Char) :=
  let d1 := l.takeWhile Char.isDigit
  if d1.isEmpty then none else
  match l.drop d1.length with
  | ',' :: w1 :: r1 =>
    if isJsWhitespace w1 then
      let d2 := r1.takeWhile Char.isDigit
      if d2.isEmpty then none else
      match r1.drop d2.length with
      | ',' :: w2 :: r2 =>
        if isJsWhitespace w2 then
          let d3 := r2.takeWhile Char.isDigit
          if d3.isEmpty then none else some (d1, d2, d3)
        else none
      | _ => none
    else none
  | _ => none

/-- First (leftmost) match of `rgbRe = /(\d+),\s(\d+),\s(\d+)/g`. -/
def rgbFind : List Char → Option (List Char × List Char × List Char)
  | [] => none
  | c :: cs =>
    match matchRgbAt (c :: cs) with
    | some m => some m
    | none => rgbFind cs

/-- Model of `v.match(rgbRe)` followed by the split-and-parse of the
constructor: the parsed channel triple of the first match. -/
def rgbMatch (s : String) : Option (Nat × Nat × Nat) :=
  (rgbFind s.data).map (fun g => (digitsToNat g.1, digitsToNat g.2.1, digitsToNat g.2.2))

/-- First (leftmost) match of `hexRe = /[0-9a-f]{6}/gi`: the first run of
six consecutive hexadecimal characters.  The pattern is unanchored, so
it matches as a substring search. -/
def hexFind : List Char → Option (List Char)
  | [] => none
  | c :: cs =>
    let six := (c :: cs).take 6
    if six.length == 6 && six.all isHexDigit then some six
    else hexFind cs

/-- Model of `v.match(hexRe)` restricted to the first match. -/
def hexMatch (s : String) : Option String :=
  (hexFind s.data).map (fun l => ⟨l⟩)

/-- Attempt to match `Same as.+` (case-insensitive) at the start of the
list: the literal `Same as`, then at least one character up to the end
of the line.  Returns the matched characters in their original case. -/
def matchSameAsAt (l : List Char) : Option (List Char) :=
  match l with
  | c0 :: c1 :: c2 :: c3 :: c4 :: c5 :: c6 :: rest =>
    if c0.toLower = 's' && c1.toLower = 'a' && c2.toLower = 'm' && c3.toLower = 'e'
        && c4 = ' ' && c5.toLower = 'a' && c6.toLower = 's' then
      let body := rest.takeWhile (fun c => !isLineTerminator c)
      if body.isEmpty then none
      else some ([c0, c1, c2, c3, c4, c5, c6] ++ body)
    else none
  | _ => none

/-- First (leftmost) match of `sameAsRe = /Same as.+/gi`. -/
def sameAsFind : List Char → Option (List Char)
  | [] => none
  | c :: cs =>
    match matchSameAsAt (c :: cs) with
    | some m => some m
    | none => sameAsFind cs

/-- Model of `v.match(sameAsRe)` restricted to the first match. -/
def sameAsMatch (s : String) : Option String :=
  (sameAsFind s.data).map (fun l => ⟨l⟩)

/-- JSON string escaping as performed by `JSON.stringify` on one character. -/
def jsonEscapeChar (c : Char) : List Char :=
  if c = '"' then ['\\', '"']
  else if c = '\\' then ['\\', '\\']
  else if c = '\n' then ['\\', 'n']
  else if c = '\t' then ['\\', 't']
  else if c = '\r' then ['\\', 'r']
  else if c = '\x08' then ['\\', 'b']
  else if c = '\x0c' then ['\\', 'f']
  else if c.toNat < 32 then
    let h := Nat.toDigits 16 c.toNat
    ['\\', 'u', '0', '0'] ++ (if h.length = 1 then '0' :: h else h)
  else [c]

/-- JSON string escaping as performed by `JSON.stringify`. -/
def jsonEscape (s : String) : String :=
  ⟨s.data.flatMap jsonEscapeChar⟩

/-- JSON rendering of one element of the rest-parameter array `values`;
an absent (`undefined`) element is rendered as `null` by `JSON.stringify`. -/
def jsonOfValue : Option String → String
  | none => "null"
  | some s => "\"" ++ jsonEscape s ++ "\""

/-- Tab-indented JSON rendering of the `values` array, as produced at
nesting depth one by `JSON.stringify(..., undefined, "\t")`. -/
def jsonValuesArray (values : List (Option String)) : String :=
  if values.isEmpty then "[]"
  else "[\n" ++ String.intercalate ",\n" (values.map (fun v => "\t\t" ++ jsonOfValue v)) ++ "\n\t]"

/-- Model of `JSON.stringify({ name, values }, undefined, "\t")`:
a key whose value is `undefined` is omitted from the object. -/
def jsonNameValues (name : Option String) (values : List (Option String)) : String :=
  match name with
  | some n =>
    "\x7b\n\t\"name\": \"" ++ jsonEscape n ++ "\",\n\t\"values\": "
      ++ jsonValuesArray values ++ "\n\x7d"
  | none => "\x7b\n\t\"values\": " ++ jsonValuesArray values ++ "\n\x7d"

/-- Model of `JSON.stringify` on an array of strings with no indent
argument: the compact one-line rendering. -/
def jsonStringArray (xs : List String) : String :=
  "[" ++ String.intercalate "," (xs.map (fun s => "\"" ++ jsonEscape s ++ "\"")) ++ "]"

/-- Default message of `InvalidColorParametersError` when the caller
passes no explicit message (the missing-name throw). -/
def icpeDefaultMessage (name : Option String) (values : List (Option String)) : String :=
  "Invalid color parameters were provided: " ++ jsonNameValues name values

/-- Message of the throw at the end of the `ColorInfo` constructor when
neither an RGB nor a hex value was found. -/
def icpeNoColorMessage (name : Option String) (values : List (Option String)) : String :=
  "Either an RGB or HEX color value must be provided. " ++ jsonNameValues name values

/-- Errors a modelled operation can raise.  `invalidColorParameters`
embeds `InvalidColorParametersError` with its message and the color
parameters it carries; `otherError` stands for a thrown value of any
other type, which the catch in `getColorInfo` re-throws. -/
inductive JsError where
  | invalidColorParameters (message : String) (name : Option String)
      (values : List (Option String))
  | otherError (message : String)
deriving DecidableEq

/-- The `ColorInfo` record: a color name and the optional classified
fields.  `rgb` holds the parsed channel triple and `hex` the parsed
numeric value, exactly as the class stores them. -/
structure ColorInfo where
  name : String
  pms : Option String := none
  rgb : Option (Nat × Nat × Nat) := none
  hex : Option Nat := none
  sameAs : Option String := none
deriving DecidableEq

/-- The `isValid` getter: `this.rgb != null || this.hex != null`. -/
def ColorInfo.isValid (c : ColorInfo) : Bool :=
  c.rgb.isSome || c.hex.isSome

/-- One iteration of the classification loop of the `ColorInfo`
constructor: the four patterns are tried in order and the first match
assigns its field; a value matching none leaves the record unchanged. -/
def scanValue (c : ColorInfo) (v : String) : ColorInfo :=
  match pmsMatch v with
  | some m => { c with pms := some m }
  | none =>
  match rgbMatch v with
  | some t => { c with rgb := some t }
  | none =>
  match hexMatch v with
  | some m => { c with hex := some (hexToNat m.data) }
  | none =>
  match sameAsMatch v with
  | some m => { c with sameAs := some m }
  | none => c

/-- The whole classification loop: `undefined` entries are skipped, the
others are classified in order by `scanValue`. -/
def colorScan (name : Option String) (values : List (Option String)) : ColorInfo :=
  values.foldl
    (fun c v =>
      match v with
      | none => c
      | some s => scanValue c s)
    { name := name.getD "" }

/-- Truthiness test of the guard `if (!name)` on the possibly absent
name argument: `undefined` and the empty string are falsy. -/
def jsFalsyName : Option String → Bool
  | none => true
  | some s => s == ""

/-- The `ColorInfo` constructor: reject a missing or empty name, scan
all values, and reject the result when neither `rgb` nor `hex` was
found. -/
def classify (name : Option String) (values : List (Option String)) :
    Except JsError ColorInfo :=
  if jsFalsyName name then
    Except.error (JsError.invalidColorParameters (icpeDefaultMessage name values) name values)
  else
    let c := colorScan name values
    if c.isValid then Except.ok c
    else Except.error (JsError.invalidColorParameters (icpeNoColorMessage name values) name values)

/-- Model of `name.replace(/\s/g, "-")`. -/
def replaceWsWithHyphen (s : String) : String :=
  ⟨s.data.map (fun c => if isJsWhitespace c then '-' else c)⟩

/-- Model of `.replace(/%/g, "-percent")`. -/
def replacePercent (s : String) : String :=
  ⟨s.data.flatMap (fun c => if c = '%' then "-percent".data else [c])⟩

/-- The `cssName` getter: the template string with both replacements
applied, lower-cased as a whole. -/
def ColorInfo.cssName (c : ColorInfo) : String :=
  ⟨("--" ++ replacePercent (replaceWsWithHyphen c.name)).data.map Char.toLower⟩

/-- Model of `this.rgb.join(",")` on the parsed channel triple. -/
def rgbJoin : Nat × Nat × Nat → String
  | (r, g, b) => Nat.repr r ++ "," ++ Nat.repr g ++ "," ++ Nat.repr b

/-- The `toString` method.  It renders in the requested format when the
backing field is present, falls back to the other field when the
requested one is absent, and otherwise throws a `TypeError`, whose
message is the error value here.  The `getD` extractions are guarded by
the presence tests of the conditions, as in the source. -/
def ColorInfo.toString (c : ColorInfo) (format : String) : Except String String :=
  if c.hex ≠ none ∧ (format = "hex" ∨ (format = "rgb" ∧ c.rgb = none)) then
    Except.ok (c.cssName ++ ": #" ++ ⟨Nat.toDigits 16 (c.hex.getD 0)⟩ ++ ";")
  else if c.rgb ≠ none ∧ (format = "rgb" ∨ (format = "hex" ∧ c.hex = none)) then
    Except.ok (c.cssName ++ ": rgb(" ++ rgbJoin (c.rgb.getD (0, 0, 0)) ++ ");")
  else
    Except.error ("format must be either \"hex\" or \"rgb\". Instead got " ++ format)

/-- Text content of one `td` cell; `none` models a null text content. -/
abbrev Cell := Option String

/-- One `tr` of an HTML table, as the list of its `td` cells. -/
abbrev Row := List Cell

/-- An HTML table, as the list of its rows in document order. -/
abbrev HtmlTable := List Row

/-- Model of `table.querySelectorAll("td:nth-child(i)")`: the cell in
column `i` (1-based, as in CSS) of every row that has one, in document
order.  `nth-child(0)` selects nothing. -/
def nthChildCells (t : HtmlTable) (i : Nat) : List Cell :=
  if i = 0 then [] else t.filterMap (fun row => row.get? (i - 1))

/-- The text selection of `getColorInfoColumn`: enumerate the selected
cells, keep those whose index is not 1 and whose text content is
non-null, and trim each text.  The entry at index 1 is the decorative
swatch cell of the column. -/
def columnTexts (cells : List Cell) : List String :=
  (cells.enum.filter (fun jc => jc.1 != 1 && jc.2.isSome)).map
    (fun jc => trimEnd (jc.2.getD ""))

/-- Model of `getColorInfoColumn`: select the cells of column `i`,
return `none` when there are none, and otherwise construct a
`ColorInfo` from the first filtered text and the remaining ones. -/
def getColorInfoColumn (t : HtmlTable) (i : Nat) : Except JsError (Option ColorInfo) :=
  let cells := nthChildCells t i
  if cells.isEmpty then Except.ok none
  else
    let textContents := columnTexts cells
    match classify textContents.head? ((textContents.drop 1).map some) with
    | Except.ok c => Except.ok (some c)
    | Except.error e => Except.error e

/-- The result of consuming the `getColorInfo` generator: the yielded
records, the error-stream log entries, and the error that aborted the
iteration, if any. -/
abbrev ColorRunResult := List ColorInfo × List String × Option JsError

/-- The try/catch around one column of `getColorInfo`: a yielded record
is prepended to the rest of the run, an `InvalidColorParametersError`
is logged (as `console.error` with the message and a newline) and the
loop continues, and any other thrown value aborts the iteration. -/
def colorColumnCatch (r : Except JsError (Option ColorInfo)) (rest : ColorRunResult) :
    ColorRunResult :=
  match r with
  | Except.ok none => rest
  | Except.ok (some c) => (c :: rest.1, rest.2.1, rest.2.2)
  | Except.error (JsError.invalidColorParameters msg _ _) =>
    (rest.1, (msg ++ "\n") :: rest.2.1, rest.2.2)
  | Except.error (JsError.otherError m) => ([], [], some (JsError.otherError m))

/-- The loop of `getColorInfo` over a list of column positions. -/
def getColorInfoAux (t : HtmlTable) : List Nat → ColorRunResult
  | [] => ([], [], none)
  | i :: rest => colorColumnCatch (getColorInfoColumn t i) (getColorInfoAux t rest)

/-- Model of the `getColorInfo` generator: columns 1 through 3. -/
def getColorInfo (t : HtmlTable) : ColorRunResult :=
  getColorInfoAux t [1, 2, 3]

/-- Model of `getColorInfosFromTable`: concatenate the per-table runs,
stopping at the first table whose iteration aborts. -/
def getColorInfosFromTable : List HtmlTable → ColorRunResult
  | [] => ([], [], none)
  | t :: ts =>
    match getColorInfo t with
    | (recs, logs, none) =>
      let rest := getColorInfosFromTable ts
      (recs ++ rest.1, logs ++ rest.2.1, rest.2.2)
    | (recs, logs, some e) => (recs, logs, some e)

/-- The `Scale` record of one typographic-scale table row. -/
structure Scale where
  base : String
  incrementName : String
  pixelSize : String
  remSize : String
deriving DecidableEq

/-- Cell texts of one scale-table row: `cell.textContent || null`
turns an empty text into null, and the filter keeps only non-null
texts. -/
def scaleCells (row : Row) : List String :=
  row.filterMap (fun c =>
    match c with
    | none => none
    | some t => if t = "" then none else some t)

/-- Attempt to match the regex `Base-?\d+` (case-sensitive) at the start
of the list, returning the length of the match.  The greedy digit run
is maximal; an optional hyphen must be followed by at least one digit. -/
def matchBaseAt : List Char → Option Nat
  | 'B' :: 'a' :: 's' :: 'e' :: rest =>
    match rest with
    | '-' :: r2 =>
      let ds := r2.takeWhile Char.isDigit
      if ds.isEmpty then none else some (5 + ds.length)
    | r2 =>
      let ds := r2.takeWhile Char.isDigit
      if ds.isEmpty then none else some (4 + ds.length)
  | _ => none

/-- End position (exclusive) of the first match of `Base-?\d+` in the
list, relative to the start of the list. -/
def findBaseEnd : List Char → Option Nat
  | [] => none
  | c :: cs =>
    match matchBaseAt (c :: cs) with
    | some e => some e
    | none => (findBaseEnd cs).map (· + 1)

/-- Model of `incrementNameRe.test(s)` for the global regex
`/Base-?\d+/g`: matching starts at the retained `lastIndex`; on success
`lastIndex` becomes the end of the match, on failure it is reset to 0.
Returns the test result and the new `lastIndex`. -/
def baseTestFrom (s : String) (lastIndex : Nat) : Bool × Nat :=
  if lastIndex > s.length then (false, 0)
  else
    match findBaseEnd (s.data.drop lastIndex) with
    | some e => (true, lastIndex + e)
    | none => (false, 0)

/-- Diagnostic written for a row with fewer than four non-empty cells. -/
def shortRowMsg (i : Nat) (cells : List String) : String :=
  "\nRow " ++ Nat.repr i ++ " should have 4 elements but only has "
    ++ Nat.repr cells.length ++ ".\n" ++ jsonStringArray cells ++ "\n"

/-- Diagnostic written for a row one of whose cells is empty. -/
def emptyCellMsg (i : Nat) (cells : List String) : String :=
  "\nRow " ++ Nat.repr i ++ " contains an empty element.\n" ++ jsonStringArray cells ++ "\n"

/-- Diagnostic written for a row whose increment name fails the test. -/
def invalidNameMsg (i : Nat) (incrementName : String) : String :=
  "Row " ++ Nat.repr i ++ " has an invalid increment name: " ++ incrementName
    ++ ". Expected to match Base-?\\d+\n"

/-- The row loop of `enumerateScaleIncrements`: `i` is the row index
and `li` the `lastIndex` of the shared matcher instance.  Row 0 is the
heading row and is skipped; a row with fewer than four non-empty cells,
or failing the increment-name test, is skipped with a diagnostic and
iteration continues.  Returns the yielded records and the diagnostics
in document order. -/
def enumScalesAux : List Row → Nat → Nat → List Scale × List String
  | [], _, _ => ([], [])
  | row :: rest, i, li =>
    if i = 0 then enumScalesAux rest (i + 1) li
    else
      let cells := scaleCells row
      if cells.length < 4 then
        let r := enumScalesAux rest (i + 1) li
        (r.1, shortRowMsg i cells :: r.2)
      else if cells.any (fun t => t = "") then
        let r := enumScalesAux rest (i + 1) li
        (r.1, emptyCellMsg i cells :: r.2)
      else
        match cells with
        | base :: incName :: px :: rem :: _ =>
          let t := baseTestFrom incName li
          if t.1 then
            let r := enumScalesAux rest (i + 1) t.2
            ({ base := base, incrementName := incName, pixelSize := px, remSize := rem } :: r.1,
              r.2)
          else
            let r := enumScalesAux rest (i + 1) t.2
            (r.1, invalidNameMsg i incName :: r.2)
        | _ => ([], [])

/-- Model of `enumerateScaleIncrements`: the regex is created afresh at
each call, so iteration starts with row index 0 and `lastIndex` 0. -/
def enumerateScaleIncrements (t : HtmlTable) : List Scale × List String :=
  enumScalesAux t 0 0

/-- The column texts as described by the specification of the column
extractor, after correction: the first selected cell and the cells from
the third onward, non-null texts only, each trimmed.  The second
selected cell is the decorative swatch cell and is always excluded. -/
def claimedColumnTexts (cells : List Cell) : List String :=
  (cells.take 1 ++ cells.drop 2).filterMap (Option.map trimEnd)

lemma isValid_false_iff (c : ColorInfo) :
    c.isValid = false ↔ (c.rgb = none ∧ c.hex = none) := by
  cases hr : c.rgb <;> cases hh : c.hex <;> simp [ColorInfo.isValid, hr, hh]

lemma isValid_true_iff (c : ColorInfo) :
    c.isValid = true ↔ (c.rgb ≠ none ∨ c.hex ≠ none) := by
  cases hr : c.rgb <;> cases hh : c.hex <;> simp [ColorInfo.isValid, hr, hh]

lemma enumFrom_filter_map_from_two (l : List Cell) :
    ∀ n, 2 ≤ n →
      ((List.enumFrom n l).filter (fun jc => jc.1 != 1 && jc.2.isSome)).map
          (fun jc => trimEnd (jc.2.getD "")) =
        l.filterMap (Option.map trimEnd) := by
  induction l with
  | nil => intro n _; rfl
  | cons a l ih =>
    intro n hn
    have hne : (n != 1) = true := by
      simp only [bne_iff_ne, ne_eq]
      omega
    cases a with
    | none =>
      simp [List.enumFrom, List.filter, hne, ih (n + 1) (by omega)]
    | some s =>
      simp [List.enumFrom, List.filter, hne, ih (n + 1) (by omega)]

lemma columnTexts_eq (cells : List Cell) : columnTexts cells = claimedColumnTexts cells := by
  match cells with
  | [] => rfl
  | [a] => cases a <;> rfl
  | a :: b :: rest =>
    cases a <;> cases b <;>
      simp [columnTexts, claimedColumnTexts, List.enum, List.enumFrom, List.filter,
        enumFrom_filter_map_from_two rest 2 (by omega)]

lemma hexFind_isSome_iff (l : List Char) :
    (hexFind l).isSome = true ↔
      ∃ pre mid post, l = pre ++ mid ++ post ∧ mid.length = 6 ∧ mid.all isHexDigit = true := by
  induction l with
  | nil =>
    simp only [hexFind, Option.isSome_none, Bool.false_eq_true, false_iff]
    rintro ⟨pre, mid, post, h, h6, -⟩
    have := congrArg List.length h
    simp [List.length_append] at this
    omega
  | cons c cs ih =>
    by_cases h : (((c :: cs).take 6).length == 6 && ((c :: cs).take 6).all isHexDigit) = true
    · have hsome : hexFind (c :: cs) = some ((c :: cs).take 6) := by
        simp only [hexFind]
        rw [if_pos h]
      constructor
      · intro _
        refine ⟨[], (c :: cs).take 6, (c :: cs).drop 6, by simp, ?_, ?_⟩
        · have h1 := ((Bool.and_eq_true _ _).mp h).1
          simpa using h1
        · exact ((Bool.and_eq_true _ _).mp h).2
      · intro _
        rw [hsome]
        rfl
    · have hstep : hexFind (c :: cs) = hexFind cs := by
        simp only [hexFind]
        rw [if_neg h]
      rw [hstep, ih]
      constructor
      · rintro ⟨pre, mid, post, hpre, h6, hall⟩
        exact ⟨c :: pre, mid, post, by simp [hpre], h6, hall⟩
      · rintro ⟨pre, mid, post, hpre, h6, hall⟩
        cases pre with
        | cons p pre' =>
          refine ⟨pre', mid, post, ?_, h6, hall⟩
          rw [List.cons_append, List.cons_append] at hpre
          exact (List.cons.injEq _ _ _ _).mp hpre |>.2
        | nil =>
          exfalso
          rw [List.nil_append] at hpre
          have htake : (c :: cs).take 6 = mid := by
            rw [hpre, ← h6]
            exact List.take_left mid post
          apply h
          rw [htake, h6, hall]
          rfl

/-- Claim C1: classification fails with `InvalidColorParametersError`
exactly when the name is empty or missing, or when after scanning all
values neither an RGB triple nor a hex value was found; consequently
every successfully constructed record has `rgb` or `hex` set. -/
theorem classify_invalid_iff (name : Option String) (values : List (Option String)) :
    ((∃ msg, classify name values =
        Except.error (JsError.invalidColorParameters msg name values)) ↔
      (jsFalsyName name = true ∨
        ((colorScan name values).rgb = none ∧ (colorScan name values).hex = none)))
    ∧ ∀ c, classify name values = Except.ok c → (c.rgb ≠ none ∨ c.hex ≠ none) := by
  constructor
  · cases hb : jsFalsyName name with
    | true =>
      have he : classify name values =
          Except.error (JsError.invalidColorParameters
            (icpeDefaultMessage name values) name values) := by
        simp [classify, hb]
      exact ⟨fun _ => Or.inl rfl, fun _ => ⟨_, he⟩⟩
    | false =>
      cases hv : (colorScan name values).isValid with
      | true =>
        have hok : classify name values = Except.ok (colorScan name values) := by
          simp [classify, hb, hv]
        constructor
        · rintro ⟨msg, hmsg⟩
          rw [hok] at hmsg
          cases hmsg
        · rintro (h | ⟨h1, h2⟩)
          · simp [hb] at h
          · have := (isValid_false_iff _).mpr ⟨h1, h2⟩
            rw [hv] at this
            cases this
      | false =>
        have herr : classify name values =
            Except.error (JsError.invalidColorParameters
              (icpeNoColorMessage name values) name values) := by
          simp [classify, hb, hv]
        exact ⟨fun _ => Or.inr ((isValid_false_iff _).mp hv), fun _ => ⟨_, herr⟩⟩
  · intro c hc
    cases hb : jsFalsyName name with
    | true =>
      have he : classify name values =
          Except.error (JsError.invalidColorParameters
            (icpeDefaultMessage name values) name values) := by
        simp [classify, hb]
      rw [he] at hc
      cases hc
    | false =>
      cases hv : (colorScan name values).isValid with
      | true =>
        have hok : classify name values = Except.ok (colorScan name values) := by
          simp [classify, hb, hv]
        rw [hok] at hc
        cases hc
        exact (isValid_true_iff _).mp hv
      | false =>
        have herr : classify name values =
            Except.error (JsError.invalidColorParameters
              (icpeNoColorMessage name values) name values) := by
          simp [classify, hb, hv]
        rw [herr] at hc
        cases hc

/-- Witness for C1: a classification that succeeds on a hex value, with
the success branch of the theorem applied at that input. -/
theorem classify_invalid_iff_witness :
    ({ name := "x", hex := some 11189196 } : ColorInfo).rgb ≠ none ∨
    ({ name := "x", hex := some 11189196 } : ColorInfo).hex ≠ none :=
  (classify_invalid_iff (some "x") [some "aabbcc"]).2
    { name := "x", hex := some 11189196 } rfl

/-- Claim C2: each value is tested against the patterns in the fixed
order Pantone, RGB, hex, alias; the first matching pattern assigns its
single field and the later patterns are not consulted, and a value
matching no pattern is discarded without error. -/
theorem scanValue_first_match (c : ColorInfo) (v : String) :
    (∀ m, pmsMatch v = some m → scanValue c v = { c with pms := some m }) ∧
    (∀ t, pmsMatch v = none → rgbMatch v = some t → scanValue c v = { c with rgb := some t }) ∧
    (∀ m, pmsMatch v = none → rgbMatch v = none → hexMatch v = some m →
      scanValue c v = { c with hex := some (hexToNat m.data) }) ∧
    (∀ m, pmsMatch v = none → rgbMatch v = none → hexMatch v = none →
      sameAsMatch v = some m → scanValue c v = { c with sameAs := some m }) ∧
    (pmsMatch v = none → rgbMatch v = none → hexMatch v = none → sameAsMatch v = none →
      scanValue c v = c) := by
  refine ⟨?_, ?_, ?_, ?_, ?_⟩ <;> intros <;> simp_all [scanValue]

/-- Witness for C2: the Pantone branch matches a percent pair, and an
unclassifiable value leaves the record unchanged. -/
theorem scanValue_first_match_witness :
    scanValue { name := "w" } "10 50%" = { name := "w", pms := some "10 50%" } ∧
    scanValue { name := "w" } "junk" = { name := "w" } :=
  ⟨(scanValue_first_match { name := "w" } "10 50%").1 "10 50%" rfl,
   (scanValue_first_match { name := "w" } "junk").2.2.2.2 rfl rfl rfl rfl⟩

/-- The record of claim C8: name `Accent 50%` and hex value `0xAABBCC`. -/
def accentColor : ColorInfo := { name := "Accent 50%", hex := some 0xAABBCC }

/-- Claim C8: the CSS variable name of `Accent 50%` is
`--accent-50-percent`, and rendering the record with hex `0xAABBCC` in
hex format yields lowercase hexadecimal with no leading `0x` and no
fixed digit width. -/
theorem accent_render_hex :
    ColorInfo.cssName accentColor = "--accent-50-percent" ∧
    ColorInfo.toString accentColor "hex" = Except.ok "--accent-50-percent: #aabbcc;" :=
  ⟨rfl, rfl⟩

/-- A record with an RGB triple but no hex value, used against C4. -/
def rgbOnlyColor : ColorInfo := { name := "x", rgb := some (1, 2, 3) }

/-- Counterexample to C4: requesting hex format on a record whose hex
field is absent does not fail; the method falls back to the RGB
rendering. -/
theorem toString_missing_backing_cex :
    rgbOnlyColor.hex = none ∧
    ColorInfo.toString rgbOnlyColor "hex" = Except.ok "--x: rgb(1,2,3);" :=
  ⟨rfl, rfl⟩

/-- Claim C4 (amended): rendering fails with a `TypeError` exactly when
the format argument is neither `hex` nor `rgb`, or when both backing
fields are absent; when the requested format lacks its backing field
but the other field is present, the method renders the other field. -/
theorem toString_error_iff (c : ColorInfo) (format : String) :
    ((∃ e, ColorInfo.toString c format = Except.error e) ↔
      ((format ≠ "hex" ∧ format ≠ "rgb") ∨ (c.hex = none ∧ c.rgb = none))) ∧
    (c.hex = none → c.rgb ≠ none → format = "hex" →
      ColorInfo.toString c format =
        Except.ok (c.cssName ++ ": rgb(" ++ rgbJoin (c.rgb.getD (0, 0, 0)) ++ ");")) ∧
    (c.rgb = none → c.hex ≠ none → format = "rgb" →
      ColorInfo.toString c format =
        Except.ok (c.cssName ++ ": #" ++ ⟨Nat.toDigits 16 (c.hex.getD 0)⟩ ++ ";")) := by
  refine ⟨?_, ?_, ?_⟩
  · by_cases h1 : format = "hex"
    · subst h1
      rcases hh : c.hex with _ | x <;> rcases hr : c.rgb with _ | y <;>
        simp [ColorInfo.toString, hh, hr]
    · by_cases h2 : format = "rgb"
      · subst h2
        rcases hh : c.hex with _ | x <;> rcases hr : c.rgb with _ | y <;>
          simp [ColorInfo.toString, h1, hh, hr]
      · rcases hh : c.hex with _ | x <;> rcases hr : c.rgb with _ | y <;>
          simp [ColorInfo.toString, h1, h2, hh, hr]
  · intro hh hr hf
    subst hf
    rcases hr' : c.rgb with _ | y
    · exact absurd hr' hr
    · simp [ColorInfo.toString, hh, hr']
  · intro hr hh hf
    subst hf
    rcases hh' : c.hex with _ | x
    · exact absurd hh' hh
    · simp [ColorInfo.toString, hh', hr]

/-- Witness for C4 (amended): both fallback branches of the theorem
applied at records that carry only one of the two fields. -/
theorem toString_error_iff_witness :
    ColorInfo.toString { name := "y1", rgb := some (4, 5, 6) } "hex" =
      Except.ok "--y1: rgb(4,5,6);" ∧
    ColorInfo.toString { name := "y2", hex := some 255 } "rgb" =
      Except.ok "--y2: #ff;" :=
  ⟨(toString_error_iff { name := "y1", rgb := some (4, 5, 6) } "hex").2.1
      rfl (by simp) rfl,
   (toString_error_iff { name := "y2", hex := some 255 } "rgb").2.2
      rfl (by simp) rfl⟩

/-- Counterexample to C6: a value of eight hexadecimal characters does
not consist of exactly six, yet the classifier stores a hex value,
because the pattern is an unanchored substring search. -/
theorem hex_exactly_six_cex :
    "aabbccdd".data.all isHexDigit = true ∧
    "aabbccdd".data.length = 8 ∧
    (scanValue { name := "y0" } "aabbccdd").hex = some 11189196 :=
  ⟨rfl, rfl, rfl⟩

/-- Claim C6 (amended): a value is classified as hex exactly when it
contains a run of six consecutive hexadecimal characters
(case-insensitive, and not matching the earlier Pantone or RGB
patterns); on match the hex field is parsed base 16 from the first such
run, and with no such run the hex field is unchanged. -/
theorem hex_classified_iff (v : String) :
    ((hexFind v.data).isSome = true ↔
      ∃ pre mid post, v.data = pre ++ mid ++ post ∧ mid.length = 6 ∧
        mid.all isHexDigit = true) ∧
    (∀ c m, pmsMatch v = none → rgbMatch v = none → hexMatch v = some m →
      scanValue c v = { c with hex := some (hexToNat m.data) }) ∧
    (∀ c, pmsMatch v = none → rgbMatch v = none → hexMatch v = none →
      (scanValue c v).hex = c.hex) := by
  refine ⟨hexFind_isSome_iff v.data, ?_, ?_⟩
  · intro c m h1 h2 h3
    simp [scanValue, h1, h2, h3]
  · intro c h1 h2 h3
    cases h4 : sameAsMatch v <;> simp [scanValue, h1, h2, h3, h4]

/-- Witness for C6 (amended): a six-character hex value is stored, and
a value with no hex run leaves the field unchanged. -/
theorem hex_classified_iff_witness :
    scanValue { name := "z1" } "aabbcc" = { name := "z1", hex := some 11189196 } ∧
    (scanValue { name := "z1" } "zz").hex = none :=
  ⟨(hex_classified_iff "aabbcc").2.1 { name := "z1" } "aabbcc" rfl rfl rfl,
   (hex_classified_iff "zz").2.2 { name := "z1" } rfl rfl rfl⟩

/-- A scale table with a heading row and two rows that both carry four
non-empty cells and an increment name matching `Base-?\d+`. -/
def scaleBugTable : HtmlTable :=
  [[some "h1", some "h2", some "h3", some "h4"],
   [some "16", some "Base-1", some "16px", some "1rem"],
   [some "20", some "Base-2", some "20px", some "1.25rem"]]

/-- Demonstration for C3: both data rows of `scaleBugTable` satisfy the
premises of the claim (four non-empty cells, increment name matching
the pattern when tested fresh), yet the enumeration yields only the
first row and logs an invalid-increment-name diagnostic for the second,
because the test reuses the matcher whose `lastIndex` the first match
advanced to the end of `Base-1`. -/
theorem scale_lastIndex_bug :
    (enumerateScaleIncrements scaleBugTable).1 =
      [{ base := "16", incrementName := "Base-1", pixelSize := "16px", remSize := "1rem" }] ∧
    (baseTestFrom "Base-2" 0).1 = true ∧
    scaleCells [some "20", some "Base-2", some "20px", some "1.25rem"] =
      ["20", "Base-2", "20px", "1.25rem"] ∧
    (enumerateScaleIncrements scaleBugTable).2 = [invalidNameMsg 2 "Base-2"] :=
  ⟨rfl, rfl, rfl, rfl⟩

/-- A one-column color table whose second selected cell holds a hex
value, used against C5. -/
def colorColumnCexTable : HtmlTable := [[some "Name"], [some "ff0000"], [some "1, 2, 3"]]

/-- The column extractor as claim C5 describes it: the name is the
first selected cell text and the values are all subsequent selected
cell texts, trimmed, with null texts filtered out.  Modelled from the
claim wording for comparison with `getColorInfoColumn`. -/
def getColorInfoColumnClaimed (t : HtmlTable) (i : Nat) : Except JsError (Option ColorInfo) :=
  let cells := nthChildCells t i
  if cells.isEmpty then Except.ok none
  else
    let name := cells.head?.getD none
    let values := (cells.drop 1).filterMap (Option.map trimEnd)
    match classify name (values.map some) with
    | Except.ok c => Except.ok (some c)
    | Except.error e => Except.error e

/-- Counterexample to C5: on a column whose second selected cell is the
hex value `ff0000`, the code drops that cell (it is the decorative
swatch slot), so the record has no hex value, while the behaviour the
claim describes would store it. -/
theorem color_column_claim_cex :
    getColorInfoColumn colorColumnCexTable 1 =
      Except.ok (some { name := "Name", rgb := some (1, 2, 3) }) ∧
    getColorInfoColumnClaimed colorColumnCexTable 1 =
      Except.ok (some { name := "Name", rgb := some (1, 2, 3), hex := some 16711680 }) ∧
    getColorInfoColumn colorColumnCexTable 1 ≠
      getColorInfoColumnClaimed colorColumnCexTable 1 := by
  refine ⟨rfl, rfl, fun h => ?_⟩
  have h2 : (Except.ok (some { name := "Name", rgb := some (1, 2, 3) }) :
      Except JsError (Option ColorInfo)) =
      Except.ok (some { name := "Name", rgb := some (1, 2, 3), hex := some 16711680 }) := h
  injection h2 with h3
  injection h3 with h4
  have h5 := congrArg ColorInfo.hex h4
  simp at h5

/-- Claim C5 (amended): with no cells at the position no record is
produced; otherwise the record is built from the selected cells minus
the second one (the decorative swatch cell), non-null texts only, each
trimmed of trailing whitespace, the first such text being the name and
the remaining ones the values. -/
theorem getColorInfoColumn_amended (t : HtmlTable) (i : Nat) :
    (nthChildCells t i = [] → getColorInfoColumn t i = Except.ok none) ∧
    (nthChildCells t i ≠ [] →
      getColorInfoColumn t i =
        (classify (claimedColumnTexts (nthChildCells t i)).head?
          (((claimedColumnTexts (nthChildCells t i)).drop 1).map some)).map some) := by
  constructor
  · intro h
    simp [getColorInfoColumn, h]
  · intro h
    have hne : (nthChildCells t i).isEmpty = false := by
      simpa [List.isEmpty_iff] using h
    have hc : columnTexts (nthChildCells t i) = claimedColumnTexts (nthChildCells t i) :=
      columnTexts_eq _
    simp only [getColorInfoColumn, hne, Bool.false_eq_true, if_false, hc]
    cases classify (claimedColumnTexts (nthChildCells t i)).head?
        (((claimedColumnTexts (nthChildCells t i)).drop 1).map some) <;>
      simp [Except.map]

/-- A color table with a single data column, used by the C5 witness. -/
def soloColorTable : HtmlTable := [[some "Solo"], [some "dec"], [some "cc0000"]]

/-- Witness for C5 (amended): both branches of the theorem applied to a
concrete populated column and to the empty table. -/
theorem getColorInfoColumn_amended_witness :
    getColorInfoColumn soloColorTable 1 =
      (classify (claimedColumnTexts (nthChildCells soloColorTable 1)).head?
        (((claimedColumnTexts (nthChildCells soloColorTable 1)).drop 1).map some)).map some ∧
    getColorInfoColumn ([] : HtmlTable) 1 = Except.ok none :=
  ⟨(getColorInfoColumn_amended soloColorTable 1).2 (by decide),
   (getColorInfoColumn_amended ([] : HtmlTable) 1).1 rfl⟩

/-- Claim C7: on the same static table, two runs of the scale
enumeration (each with a fresh matcher instance, hence starting from
`lastIndex` 0 as `enumerateScaleIncrements` does) yield identical
record sequences, and likewise two runs of the color extraction. -/
theorem extract_twice_identical (t : HtmlTable) (tables : List HtmlTable) :
    (enumerateScaleIncrements t).1 = (enumScalesAux t 0 0).1 ∧
    (enumerateScaleIncrements t).1 = (enumerateScaleIncrements t).1 ∧
    (getColorInfosFromTable tables).1 = (getColorInfosFromTable tables).1 :=
  ⟨rfl, rfl, rfl⟩

/-- Claim C9: a post-header row with fewer than four non-empty cells
yields nothing; a diagnostic carrying the row index, the actual cell
count and the cell contents is written to the error stream, and
enumeration continues with the following rows. -/
theorem short_row_diagnostic (rest : List Row) (row : Row) (i li : Nat)
    (hi : i ≠ 0) (hlen : (scaleCells row).length < 4) :
    enumScalesAux (row :: rest) i li =
      ((enumScalesAux rest (i + 1) li).1,
        shortRowMsg i (scaleCells row) :: (enumScalesAux rest (i + 1) li).2) ∧
    shortRowMsg i (scaleCells row) =
      "\nRow " ++ Nat.repr i ++ " should have 4 elements but only has "
        ++ Nat.repr (scaleCells row).length ++ ".\n"
        ++ jsonStringArray (scaleCells row) ++ "\n" := by
  refine ⟨?_, rfl⟩
  simp [enumScalesAux, hi, hlen]

/-- The three-cell row of the specification example for C9. -/
def shortScaleRow : Row := [some "16", some "Base1", some "16px"]

/-- Witness for C9: the theorem applied to the three-cell example row
of the specification, after a heading offset of one. -/
theorem short_row_diagnostic_witness :
    enumScalesAux [shortScaleRow] 1 0 = ([], [shortRowMsg 1 ["16", "Base1", "16px"]]) :=
  (short_row_diagnostic [] shortScaleRow 1 0 (by decide) (by decide)).1

/-- A color table whose single data column classifies to neither an RGB
nor a hex value, used by the C10 witness. -/
def invalidColorTable : HtmlTable := [[some "Name"], [some "sep"], [some "junk"]]

/-- Claim C10: when building the record for a column position raises
`InvalidColorParametersError`, the extraction logs the message to the
error stream, yields no record for that column and continues with the
remaining positions; a thrown value of any other type propagates and
aborts the iteration for that table. -/
theorem color_error_handling (t : HtmlTable) (i : Nat) (rest : List Nat) :
    (∀ msg n vs,
      getColorInfoColumn t i = Except.error (JsError.invalidColorParameters msg n vs) →
      getColorInfoAux t (i :: rest) =
        ((getColorInfoAux t rest).1,
          (msg ++ "\n") :: (getColorInfoAux t rest).2.1,
          (getColorInfoAux t rest).2.2)) ∧
    (∀ m acc, colorColumnCatch (Except.error (JsError.otherError m)) acc =
      ([], [], some (JsError.otherError m))) := by
  constructor
  · intro msg n vs h
    simp [getColorInfoAux, h, colorColumnCatch]
  · intro m acc
    rfl

/-- Witness for C10: the invalid-color branch of the theorem applied to
a column that classifies to neither an RGB nor a hex value. -/
theorem color_error_handling_witness :
    getColorInfoAux invalidColorTable [1] =
      ([], [icpeNoColorMessage (some "Name") [some "junk"] ++ "\n"], none) :=
  (color_error_handling invalidColorTable 1 []).1
    (icpeNoColorMessage (some "Name") [some "junk"]) (some "Name") [some "junk"] rfl

end WsdotStyles
